import Mathlib

/-!
Verification of the agent playground repository (agents, registry, config,
HTTP server) against its natural-language specification.

Shallow embedding conventions:
* Python strings are Lean `String`.
* A Python `Dict[str, Any]` context is modelled as an association list of
  string keys to string values (`Ctx`); its f-string rendering is `renderCtx`.
* Fallible Python calls are modelled with `Except String α`, the error
  carrying `str(e)`.
* Python dicts used as keyword-argument / environment maps are modelled as
  functions `String → Option _` (a dict is a finite map; iteration order is
  irrelevant for the merged lookups performed by the code).
-/

namespace ADK

/-- A message context: Python `Dict[str, Any]`, modelled with string values. -/
abbrev Ctx : Type := List (String × String)

/-- Python truthiness of an `Optional[Dict]`: `None` and the empty dict are
falsy, a non-empty dict is truthy.  Models the test `if context:`. -/
def ctxTruthy : Option Ctx → Bool
  | Option.none => false
  | some c => !(List.isEmpty c)

/-- Python f-string rendering of a str-valued dict, e.g. `\x7b'k': 'v'\x7d`. -/
def renderCtx (c : Ctx) : String :=
  "\x7b" ++ String.intercalate ", "
    (List.map (fun p => "\x27" ++ p.1 ++ "\x27: \x27" ++ p.2 ++ "\x27") c)
  ++ "\x7d"

/-- `EchoAgent.process_message` from `src/adk/agents/__init__.py` (lines
48-56): builds `"Echo: " + message`, and appends
`" (Context: " + f-string of the dict + ")"` when the context is truthy.
The result type `Except String String` reflects the agent interface whose
message processing may raise; this body only ever returns normally. -/
def EchoAgent.process_message (message : String) (context : Option Ctx) :
    Except String String :=
  let response := "Echo: " ++ message
  let response :=
    if ctxTruthy context then
      response ++ (" (Context: " ++ renderCtx (context.getD []) ++ ")")
    else response
  Except.ok response

/-- The outcome of the remote text-generation call (SDK import, model load,
`model.predict`, and reading `response.text`), abstracted as a function from
the message to either the generated text or the raised error's `str(e)`. -/
abbrev RemoteCall : Type := String → Except String String

/-- `VertexAIAgent.process_message` from `src/adk/agents/__init__.py` (lines
85-111); the spec calls this class RemoteTextAgent.  The whole body sits in a
`try` block: on success it returns the generated text, and any exception is
caught and rendered as the NORMAL return value
`"Error processing message: " + str(e)`.  The context argument is accepted
but never used by the source. -/
def VertexAIAgent.process_message (remote : RemoteCall) (message : String)
    (context : Option Ctx) : Except String String :=
  match remote message with
  | Except.ok text => Except.ok text
  | Except.error e => Except.ok ("Error processing message: " ++ e)

/-- Agent classes held by the registry. -/
inductive AgentClass where
  | echoAgent
  | vertexAIAgent
  deriving DecidableEq, Repr

/-- The agent registry `AVAILABLE_AGENTS` from `src/adk/agents/__init__.py`
(lines 114-118): a module-level dict mapping the type tag to the agent class,
in declaration order. -/
def AVAILABLE_AGENTS : List (String × AgentClass) :=
  [("echo", AgentClass.echoAgent), ("vertex", AgentClass.vertexAIAgent)]

/-- A health payload (`Dict[str, Any]`), modelled as a str-to-str mapping. -/
abbrev HealthPayload : Type := List (String × String)

/-- A runtime agent instance living in the server's `agents` dict: its name,
its (possibly raising) `process_message`, and its (possibly raising)
`health_check`. -/
structure AgentInst where
  name : String
  description : String
  processMessage : String → Option Ctx → Except String String
  healthCheck : Except String HealthPayload

/-- The server's runtime agent set (`agents` global in `examples/server.py`):
a dict from type tag to agent instance, in insertion order. -/
abbrev RuntimeAgents : Type := List (String × AgentInst)

/-- `startup_event` from `examples/server.py` (lines 51-64): for every
registry entry, construct the agent and call its initialization; on success
store it under its tag, on any exception log and continue.  The registry
entry's construct-and-init outcome is abstracted as an `Except` value. -/
def startup_event (registry : List (String × Except String AgentInst)) :
    RuntimeAgents :=
  List.filterMap
    (fun p => match p.2 with
      | Except.ok a => some (p.1, a)
      | Except.error _ => Option.none)
    registry

/-- The `MessageRequest` pydantic model of `examples/server.py` (the spec's
ChatRequest). -/
structure MessageRequest where
  message : String
  context : Option Ctx
  agent_type : String

/-- The `MessageResponse` pydantic model of `examples/server.py` (the spec's
ChatResponse). -/
structure MessageResponse where
  response : String
  agent_name : String
  agent_type : String
  deriving DecidableEq, Repr

/-- Outcome of the `POST /chat` handler: HTTP 200 with a `MessageResponse`,
HTTP 400 (`HTTPException(status_code=400, detail=...)`), or HTTP 500
(`HTTPException(status_code=500, detail=...)`). -/
inductive ChatResult where
  | ok (resp : MessageResponse)
  | badRequest (detail : String)
  | serverError (detail : String)
  deriving DecidableEq, Repr

/-- Python `repr` of a list of strings, e.g. `[\x27echo\x27, \x27vertex\x27]`;
models the f-string rendering of `list(agents.keys())`. -/
def renderPyList (xs : List String) : String :=
  "[" ++ String.intercalate ", " (List.map (fun s => "\x27" ++ s ++ "\x27") xs)
  ++ "]"

/-- The `chat` handler of `examples/server.py` (lines 97-116): 400 when the
requested tag is not a key of the runtime agent set, otherwise call the
agent's `process_message`; an exception from it is caught and re-raised as a
500 whose detail is `"Agent error: " + str(e)`. -/
def chat (agents : RuntimeAgents) (request : MessageRequest) : ChatResult :=
  match List.lookup request.agent_type agents with
  | Option.none =>
      ChatResult.badRequest
        ("Agent type \x27" ++ request.agent_type
          ++ "\x27 not available. Available types: "
          ++ renderPyList (List.map Prod.fst agents))
  | some agent =>
      match agent.processMessage request.message request.context with
      | Except.ok response =>
          ChatResult.ok
            { response := response
              agent_name := agent.name
              agent_type := request.agent_type }
      | Except.error e => ChatResult.serverError ("Agent error: " ++ e)

/-- The result of `validate_environment()`, passed through opaquely by the
health handler. -/
abbrev EnvStatus : Type := List (String × String)

/-- The `HealthResponse` pydantic model of `examples/server.py` (the spec's
HealthReport). -/
structure HealthResponse where
  status : String
  environment : EnvStatus
  agents : List (String × HealthPayload)

/-- The per-agent part of the `/health` handler (`examples/server.py` lines
81-88): each agent's `health_check` is called under a `try`; a raising agent
contributes `\x7b"status": "error", "error": str(e)\x7d` for its own tag
only. -/
def healthEntries (agents : RuntimeAgents) : List (String × HealthPayload) :=
  List.map
    (fun p => match p.2.healthCheck with
      | Except.ok h => (p.1, h)
      | Except.error e => (p.1, [("status", "error"), ("error", e)]))
    agents

/-- The `health_check` handler of `examples/server.py` (lines 77-94): builds
a `HealthResponse` with top-level status `"healthy"`, the environment
validation result, and the per-agent entries.  The `Except` codomain records
that the handler itself raises no exception. -/
def health_check_route (envStatus : EnvStatus) (agents : RuntimeAgents) :
    Except String HealthResponse :=
  Except.ok
    { status := "healthy"
      environment := envStatus
      agents := healthEntries agents }

/-- A Python value that may be passed as a keyword argument to `Config` or
produced for a field: a string, an int, a bool, or `None`. -/
inductive PyVal where
  | str (s : String)
  | int (n : Int)
  | bool (b : Bool)
  | pynone
  deriving DecidableEq, Repr

/-- The `Config` pydantic model of `src/adk/config/__init__.py` (lines 9-41),
with each field at its declared type (`Optional[str]` as `Option String`). -/
structure Config where
  google_cloud_project : String
  google_application_credentials : Option String
  vertex_ai_location : String
  dialogflow_project_id : Option String
  dialogflow_language_code : String
  openai_api_key : Option String
  agent_name : String
  agent_description : String
  host : String
  port : Int
  debug : Bool
  log_level : String
  log_format : String
  storage_bucket : Option String
  environment : String
  deriving DecidableEq, Repr

/-- The field names of `Config`, in declaration order (`self.model_fields`).
-/
def configFieldNames : List String :=
  ["google_cloud_project", "google_application_credentials",
   "vertex_ai_location", "dialogflow_project_id", "dialogflow_language_code",
   "openai_api_key", "agent_name", "agent_description", "host", "port",
   "debug", "log_level", "log_format", "storage_bucket", "environment"]

/-- The environment variable backing each config field, from the
`Field(env=...)` annotations of `src/adk/config/__init__.py` (lines 13-41);
every one equals `field_name.upper()`, the fallback `Config.__init__`
computes when the annotation is unavailable. -/
def env_var_of_field : String → String
  | "google_cloud_project" => "GOOGLE_CLOUD_PROJECT"
  | "google_application_credentials" => "GOOGLE_APPLICATION_CREDENTIALS"
  | "vertex_ai_location" => "VERTEX_AI_LOCATION"
  | "dialogflow_project_id" => "DIALOGFLOW_PROJECT_ID"
  | "dialogflow_language_code" => "DIALOGFLOW_LANGUAGE_CODE"
  | "openai_api_key" => "OPENAI_API_KEY"
  | "agent_name" => "AGENT_NAME"
  | "agent_description" => "AGENT_DESCRIPTION"
  | "host" => "HOST"
  | "port" => "PORT"
  | "debug" => "DEBUG"
  | "log_level" => "LOG_LEVEL"
  | "log_format" => "LOG_FORMAT"
  | "storage_bucket" => "STORAGE_BUCKET"
  | "environment" => "ENVIRONMENT"
  | f => f

/-- The `env_values` dict built by `Config.__init__` (lines 49-53): for each
model field, the value of its environment variable when set.  Environment
values always arrive as strings. -/
def env_values (environ : String → Option String) : String → Option PyVal :=
  fun f =>
    if f ∈ configFieldNames then
      Option.map PyVal.str (environ (env_var_of_field f))
    else Option.none

/-- The `final_values` dict of `Config.__init__` (line 56):
`\x7b**env_values, **kwargs\x7d`, i.e. an explicit keyword argument wins over
the environment value for the same field. -/
def final_values (kwargs : String → Option PyVal)
    (environ : String → Option String) : String → Option PyVal :=
  fun k => Option.orElse (kwargs k) (fun _ => env_values environ k)

/-- Pydantic validation of a `str` field: a missing value takes the field's
default, a string passes through, anything else is rejected. -/
def coerceStr : Option PyVal → String → Option String
  | Option.none, d => some d
  | some (PyVal.str s), _ => some s
  | some _, _ => Option.none

/-- Pydantic validation of an `Optional[str]` field: a missing value takes
the default, `None` and strings pass through, anything else is rejected. -/
def coerceOptStr : Option PyVal → Option String → Option (Option String)
  | Option.none, d => some d
  | some (PyVal.str s), _ => some (some s)
  | some PyVal.pynone, _ => some Option.none
  | some _, _ => Option.none

/-- Pydantic (lax) validation of an `int` field: ints pass through, numeric
strings are parsed, anything else is rejected. -/
def coerceInt : Option PyVal → Int → Option Int
  | Option.none, d => some d
  | some (PyVal.int n), _ => some n
  | some (PyVal.str s), _ => s.toInt?
  | some _, _ => Option.none

/-- Pydantic lax parsing of a boolean-looking string. -/
def parseBoolStr (s : String) : Option Bool :=
  let l := s.toLower
  if l ∈ ["true", "t", "yes", "y", "on", "1"] then some true
  else if l ∈ ["false", "f", "no", "n", "off", "0"] then some false
  else Option.none

/-- Pydantic (lax) validation of a `bool` field. -/
def coerceBool : Option PyVal → Bool → Option Bool
  | Option.none, d => some d
  | some (PyVal.bool b), _ => some b
  | some (PyVal.str s), _ => parseBoolStr s
  | some (PyVal.int n), _ =>
      if n = 0 then some false else if n = 1 then some true else Option.none
  | some _, _ => Option.none

/-- `Config.__init__` from `src/adk/config/__init__.py` (lines 43-57):
merge the per-field environment values with the explicit keyword arguments
(keyword arguments winning), then run pydantic validation, each missing
field falling back to its declared default.  `Option.none` models a raised
`ValidationError`.  The `.env`-file loading of `load_dotenv()` is part of
the opaque `environ` input. -/
def Config.construct (kwargs : String → Option PyVal)
    (environ : String → Option String) : Option Config :=
  let fv := final_values kwargs environ
  Option.bind (coerceStr (fv "google_cloud_project") "") fun
      google_cloud_project =>
  Option.bind (coerceOptStr (fv "google_application_credentials") Option.none)
      fun google_application_credentials =>
  Option.bind (coerceStr (fv "vertex_ai_location") "us-central1") fun
      vertex_ai_location =>
  Option.bind (coerceOptStr (fv "dialogflow_project_id") Option.none) fun
      dialogflow_project_id =>
  Option.bind (coerceStr (fv "dialogflow_language_code") "en-US") fun
      dialogflow_language_code =>
  Option.bind (coerceOptStr (fv "openai_api_key") Option.none) fun
      openai_api_key =>
  Option.bind (coerceStr (fv "agent_name") "playground-agent") fun
      agent_name =>
  Option.bind (coerceStr (fv "agent_description")
      "A playground agent for experimentation") fun agent_description =>
  Option.bind (coerceStr (fv "host") "localhost") fun host =>
  Option.bind (coerceInt (fv "port") 8000) fun port =>
  Option.bind (coerceBool (fv "debug") true) fun debug =>
  Option.bind (coerceStr (fv "log_level") "INFO") fun log_level =>
  Option.bind (coerceStr (fv "log_format") "json") fun log_format =>
  Option.bind (coerceOptStr (fv "storage_bucket") Option.none) fun
      storage_bucket =>
  Option.bind (coerceStr (fv "environment") "development") fun environment =>
  some
    { google_cloud_project, google_application_credentials,
      vertex_ai_location, dialogflow_project_id, dialogflow_language_code,
      openai_api_key, agent_name, agent_description, host, port, debug,
      log_level, log_format, storage_bucket, environment }

/-- C1: with no context, `EchoAgent.process_message m` returns exactly
`"Echo: " + m`; with a non-empty context mapping `c`, the returned string
extends `"Echo: " + m` by a parenthesised textual rendering of `c`. -/
theorem echo_process_message_c1 :
    (∀ m : String,
      EchoAgent.process_message m Option.none = Except.ok ("Echo: " ++ m)) ∧
    (∀ (m : String) (c : Ctx), c ≠ [] →
      ∃ suffix,
        EchoAgent.process_message m (some c)
          = Except.ok ("Echo: " ++ m ++ suffix) ∧
        suffix = " (Context: " ++ renderCtx c ++ ")") := by
  constructor
  · intro m
    rfl
  · intro m c hc
    refine ⟨" (Context: " ++ renderCtx c ++ ")", ?_, rfl⟩
    cases c with
    | nil => exact absurd rfl hc
    | cons hd tl => rfl

/-- Witness for C1 at the concrete message "hi" and context
containing one key. -/
theorem echo_process_message_c1_witness :
    ∃ suffix,
      EchoAgent.process_message "hi" (some [("k", "v")])
        = Except.ok ("Echo: " ++ "hi" ++ suffix) ∧
      suffix = " (Context: " ++ renderCtx [("k", "v")] ++ ")" :=
  echo_process_message_c1.2 "hi" [("k", "v")] (by decide)

/-- C2: whenever the remote text-generation call fails, the spec's
RemoteTextAgent (source class `VertexAIAgent`) does not propagate the error:
`process_message` returns `"Error processing message: " + str(e)` as a
normal, successful result. -/
theorem vertex_process_message_error_c2 :
    ∀ (remote : RemoteCall) (m : String) (c : Option Ctx) (e : String),
      remote m = Except.error e →
      VertexAIAgent.process_message remote m c
        = Except.ok ("Error processing message: " ++ e) := by
  intro remote m c e h
  simp [VertexAIAgent.process_message, h]

/-- Witness for C2 with a remote call that always raises "boom". -/
theorem vertex_process_message_error_c2_witness :
    VertexAIAgent.process_message (fun _ => Except.error "boom") "hi"
      Option.none = Except.ok ("Error processing message: " ++ "boom") :=
  vertex_process_message_error_c2 (fun _ => Except.error "boom") "hi"
    Option.none "boom" rfl

/-- C7 counterexample: the registry `AVAILABLE_AGENTS` has no key "remote";
the source tags the second agent class "vertex", not "remote". -/
theorem available_agents_no_remote_c7 :
    List.lookup "remote" AVAILABLE_AGENTS = Option.none := by decide

/-- C7 amended: the registry is populated at process start with at least the
two entries mapping the tag "echo" to the EchoAgent class and the tag
"vertex" to the class the spec calls RemoteTextAgent (source name
`VertexAIAgent`). -/
theorem available_agents_entries_c7 :
    List.lookup "echo" AVAILABLE_AGENTS = some AgentClass.echoAgent ∧
    List.lookup "vertex" AVAILABLE_AGENTS = some AgentClass.vertexAIAgent := by
  constructor <;> decide

/-- C8: `EchoAgent.process_message` never fails: on every message and every
optional context it returns a string normally. -/
theorem echo_process_message_total_c8 :
    ∀ (m : String) (c : Option Ctx),
      ∃ s, EchoAgent.process_message m c = Except.ok s := by
  intro m c
  exact ⟨_, rfl⟩

/-- C9: an empty context mapping is treated like an absent context:
`EchoAgent.process_message m (some [])` is exactly `"Echo: " + m`, with no
" (Context: ...)" suffix, identical to the no-context result. -/
theorem echo_process_message_empty_context_c9 :
    ∀ m : String,
      EchoAgent.process_message m (some []) = Except.ok ("Echo: " ++ m) ∧
      EchoAgent.process_message m (some [])
        = EchoAgent.process_message m Option.none := by
  intro m
  exact ⟨rfl, rfl⟩

/-- C3: full case analysis of the `POST /chat` handler: unknown tag gives an
HTTP 400 whose detail lists the available types; a known tag runs the
agent's `process_message`, wrapping a normal result in a 200
`MessageResponse` and a raised exception in an HTTP 500 carrying the error
message. -/
theorem chat_route_c3 :
    ∀ (agents : RuntimeAgents) (request : MessageRequest),
      (List.lookup request.agent_type agents = Option.none →
        chat agents request
          = ChatResult.badRequest
              ("Agent type \x27" ++ request.agent_type
                ++ "\x27 not available. Available types: "
                ++ renderPyList (List.map Prod.fst agents))) ∧
      (∀ a, List.lookup request.agent_type agents = some a →
        (∀ r, a.processMessage request.message request.context = Except.ok r →
          chat agents request
            = ChatResult.ok
                { response := r, agent_name := a.name,
                  agent_type := request.agent_type }) ∧
        (∀ e,
          a.processMessage request.message request.context
              = Except.error e →
          chat agents request
            = ChatResult.serverError ("Agent error: " ++ e))) := by
  intro agents request
  refine ⟨?_, ?_⟩
  · intro h
    simp [chat, h]
  · intro a ha
    refine ⟨?_, ?_⟩
    · intro r hr
      simp [chat, ha, hr]
    · intro e he
      simp [chat, ha, he]

/-- A healthy echo-like runtime agent used as a concrete witness input. -/
def goodAgentW : AgentInst :=
  { name := "server-echo", description := "Simple echo agent for testing",
    processMessage := fun m _ => Except.ok ("Echo: " ++ m),
    healthCheck := Except.ok [("status", "healthy")] }

/-- A runtime agent whose health check raises, used as a concrete witness
input. -/
def badAgentW : AgentInst :=
  { name := "server-vertex", description := "Agent that uses Google Vertex AI",
    processMessage := fun _ _ => Except.error "predict failed",
    healthCheck := Except.error "down" }

/-- A concrete runtime agent set with one healthy and one failing agent. -/
def agentsW : RuntimeAgents := [("echo", goodAgentW), ("vertex", badAgentW)]

/-- A concrete chat request for an unknown agent type. -/
def requestNopeW : MessageRequest :=
  { message := "hi", context := Option.none, agent_type := "nope" }

/-- A concrete chat request for the echo agent. -/
def requestEchoW : MessageRequest :=
  { message := "hi", context := Option.none, agent_type := "echo" }

/-- Witness for C3: the unknown tag "nope" yields the 400 with the available
types, and the known tag "echo" yields the 200 envelope. -/
theorem chat_route_c3_witness :
    chat agentsW requestNopeW
      = ChatResult.badRequest
          ("Agent type \x27" ++ requestNopeW.agent_type
            ++ "\x27 not available. Available types: "
            ++ renderPyList (List.map Prod.fst agentsW)) ∧
    chat agentsW requestEchoW
      = ChatResult.ok
          { response := "Echo: " ++ "hi", agent_name := goodAgentW.name,
            agent_type := requestEchoW.agent_type } :=
  ⟨(chat_route_c3 agentsW requestNopeW).1 rfl,
   ((chat_route_c3 agentsW requestEchoW).2 goodAgentW rfl).1
     ("Echo: " ++ "hi") rfl⟩

/-- C4: the `/health` handler never fails: it returns a response built from
the per-agent entries, where an agent whose `health_check` raises
contributes only its own `status/error` entry and every agent whose
`health_check` succeeds contributes its own payload. -/
theorem health_route_isolation_c4 :
    ∀ (envStatus : EnvStatus) (agents : RuntimeAgents),
      health_check_route envStatus agents
        = Except.ok
            { status := "healthy", environment := envStatus,
              agents := healthEntries agents } ∧
      ∀ (tag : String) (a : AgentInst), (tag, a) ∈ agents →
        (∀ e, a.healthCheck = Except.error e →
          (tag, [("status", "error"), ("error", e)])
            ∈ healthEntries agents) ∧
        (∀ h, a.healthCheck = Except.ok h →
          (tag, h) ∈ healthEntries agents) := by
  intro env agents
  refine ⟨rfl, ?_⟩
  intro tag a hmem
  refine ⟨?_, ?_⟩
  · intro e he
    refine List.mem_map.mpr ⟨(tag, a), hmem, ?_⟩
    simp [he]
  · intro h hh
    refine List.mem_map.mpr ⟨(tag, a), hmem, ?_⟩
    simp [hh]

/-- Witness for C4: in the concrete agent set, the failing agent's entry is
the error rendering, and the healthy agent's entry is its own payload. -/
theorem health_route_isolation_c4_witness :
    ("vertex", [("status", "error"), ("error", "down")])
        ∈ healthEntries agentsW ∧
    ("echo", [("status", "healthy")]) ∈ healthEntries agentsW :=
  ⟨((health_route_isolation_c4 [] agentsW).2 "vertex" badAgentW
      (List.mem_cons_of_mem _ (List.mem_cons_self _ _))).1 "down" rfl,
   ((health_route_isolation_c4 [] agentsW).2 "echo" goodAgentW
      (List.mem_cons_self _ _)).2 [("status", "healthy")] rfl⟩

/-- C10: the top-level status of every `/health` response is the literal
"healthy", whatever the environment validation result and the agents'
health-check outcomes are. -/
theorem health_route_status_c10 :
    ∀ (envStatus : EnvStatus) (agents : RuntimeAgents),
      ∃ resp, health_check_route envStatus agents = Except.ok resp ∧
        resp.status = "healthy" := by
  intro env agents
  exact ⟨_, rfl, rfl⟩

/-- Membership in the runtime agent set comes only from a successful
registry entry. -/
lemma startup_event_mem {registry : List (String × Except String AgentInst)}
    {tag : String} {a : AgentInst}
    (h : (tag, a) ∈ startup_event registry) :
    (tag, Except.ok a) ∈ registry := by
  unfold startup_event at h
  obtain ⟨q, hq, hfq⟩ := List.mem_filterMap.mp h
  obtain ⟨t, r⟩ := q
  cases r with
  | ok b =>
    simp only [Option.some.injEq, Prod.mk.injEq] at hfq
    obtain ⟨rfl, rfl⟩ := hfq
    exact hq
  | error e => simp at hfq

/-- In a list with no duplicate keys, a key determines its value. -/
lemma assoc_nodup_keys_inj
    {l : List (String × Except String AgentInst)}
    (hnd : (List.map Prod.fst l).Nodup) {k : String}
    {v w : Except String AgentInst} (hv : (k, v) ∈ l) (hw : (k, w) ∈ l) :
    v = w := by
  induction l with
  | nil => cases hv
  | cons hd tl ih =>
    rw [List.map_cons, List.nodup_cons] at hnd
    cases hv with
    | head =>
      cases hw with
      | head => rfl
      | tail _ hw' =>
        exact absurd (List.mem_map.mpr ⟨(k, w), hw', rfl⟩) hnd.1
    | tail _ hv' =>
      cases hw with
      | head =>
        exact absurd (List.mem_map.mpr ⟨(k, v), hv', rfl⟩) hnd.1
      | tail _ hw' => exact ih hnd.2 hv' hw'

/-- If every registry entry fails to initialize, startup leaves the runtime
agent set empty (and still completes). -/
lemma startup_event_all_failed
    {registry : List (String × Except String AgentInst)}
    (hall : ∀ p ∈ registry, ∃ e, p.2 = Except.error e) :
    startup_event registry = [] := by
  induction registry with
  | nil => rfl
  | cons hd tl ih =>
    obtain ⟨e, he⟩ := hall hd (List.mem_cons_self _ _)
    obtain ⟨t, r⟩ := hd
    simp only at he
    rw [he]
    show startup_event ((t, Except.error e) :: tl) = []
    unfold startup_event
    rw [List.filterMap_cons]
    exact ih fun p hp => hall p (List.mem_cons_of_mem _ hp)

/-- C6: after `startup_event`, every runtime tag is a registry key; a
registered tag whose construction or initialization failed is absent from
the runtime agent set; and startup completes (with an empty runtime set)
even when every registered agent fails to initialize. -/
theorem startup_event_c6 :
    ∀ registry : List (String × Except String AgentInst),
      (∀ tag, tag ∈ List.map Prod.fst (startup_event registry) →
        tag ∈ List.map Prod.fst registry) ∧
      ((List.map Prod.fst registry).Nodup →
        ∀ tag e, (tag, Except.error e) ∈ registry →
          tag ∉ List.map Prod.fst (startup_event registry)) ∧
      ((∀ p ∈ registry, ∃ e, p.2 = Except.error e) →
        startup_event registry = []) := by
  intro registry
  refine ⟨?_, ?_, startup_event_all_failed⟩
  · intro tag htag
    obtain ⟨⟨t, a⟩, hmem, hfst⟩ := List.mem_map.mp htag
    subst hfst
    exact List.mem_map.mpr ⟨(t, Except.ok a), startup_event_mem hmem, rfl⟩
  · intro hnd tag e hmem htag
    obtain ⟨⟨t, a⟩, hmem', hfst⟩ := List.mem_map.mp htag
    subst hfst
    exact Except.noConfusion
      (assoc_nodup_keys_inj hnd hmem (startup_event_mem hmem'))

/-- A concrete registry with one succeeding and one failing entry. -/
def registryW : List (String × Except String AgentInst) :=
  [("echo", Except.ok goodAgentW), ("vertex", Except.error "init failed")]

/-- A concrete registry where every entry fails. -/
def registryAllFailW : List (String × Except String AgentInst) :=
  [("vertex", Except.error "init failed")]

/-- Witness for C6 on the concrete registries: the succeeding tag survives,
the failing tag is dropped, and an all-failing registry yields the empty
runtime set. -/
theorem startup_event_c6_witness :
    "echo" ∈ List.map Prod.fst registryW ∧
    "vertex" ∉ List.map Prod.fst (startup_event registryW) ∧
    startup_event registryAllFailW = [] :=
  ⟨(startup_event_c6 registryW).1 "echo" (by decide),
   (startup_event_c6 registryW).2.1 (by decide) "vertex" "init failed"
     (List.mem_cons_of_mem _ (List.mem_cons_self _ _)),
   (startup_event_c6 registryAllFailW).2.2
     (fun p hp => by
       cases hp with
       | head => exact ⟨"init failed", rfl⟩
       | tail _ h => cases h)⟩

/-- An explicit keyword argument wins in the merged dict. -/
lemma final_values_override {kw : String → Option PyVal}
    {env : String → Option String} {f : String} {v : PyVal}
    (h : kw f = some v) : final_values kw env f = some v := by
  unfold final_values
  rw [h]
  rfl

/-- Without a keyword argument, a set environment variable supplies the
field's value in the merged dict. -/
lemma final_values_env {kw : String → Option PyVal}
    {env : String → Option String} {f : String} {s : String}
    (h1 : kw f = Option.none) (hf : f ∈ configFieldNames)
    (h2 : env (env_var_of_field f) = some s) :
    final_values kw env f = some (PyVal.str s) := by
  simp [final_values, env_values, h1, hf, h2]

/-- Without a keyword argument or an environment variable, the merged dict
has no entry for the field (pydantic then uses the declared default). -/
lemma final_values_default {kw : String → Option PyVal}
    {env : String → Option String} {f : String}
    (h1 : kw f = Option.none) (h2 : env (env_var_of_field f) = Option.none) :
    final_values kw env f = Option.none := by
  simp [final_values, env_values, h1, h2]

/-- Precedence of a `str` config field with value `x` and default `d`:
keyword argument over environment variable over default. -/
def StrFieldPrec (kw : String → Option PyVal)
    (environ : String → Option String) (f x d : String) : Prop :=
  (∀ v, kw f = some (PyVal.str v) → x = v) ∧
  (kw f = Option.none → ∀ s, environ (env_var_of_field f) = some s → x = s) ∧
  (kw f = Option.none → environ (env_var_of_field f) = Option.none → x = d)

/-- Precedence of an `Optional[str]` config field. -/
def OptStrFieldPrec (kw : String → Option PyVal)
    (environ : String → Option String) (f : String) (x d : Option String) :
    Prop :=
  (∀ v, kw f = some (PyVal.str v) → x = some v) ∧
  (kw f = some PyVal.pynone → x = Option.none) ∧
  (kw f = Option.none → ∀ s, environ (env_var_of_field f) = some s → x = some s) ∧
  (kw f = Option.none → environ (env_var_of_field f) = Option.none → x = d)

/-- Precedence of an `int` config field (environment values arrive as
strings and are parsed). -/
def IntFieldPrec (kw : String → Option PyVal)
    (environ : String → Option String) (f : String) (x d : Int) : Prop :=
  (∀ n, kw f = some (PyVal.int n) → x = n) ∧
  (kw f = Option.none → ∀ s n, environ (env_var_of_field f) = some s →
    s.toInt? = some n → x = n) ∧
  (kw f = Option.none → environ (env_var_of_field f) = Option.none → x = d)

/-- Precedence of a `bool` config field. -/
def BoolFieldPrec (kw : String → Option PyVal)
    (environ : String → Option String) (f : String) (x d : Bool) : Prop :=
  (∀ b, kw f = some (PyVal.bool b) → x = b) ∧
  (kw f = Option.none → ∀ s b, environ (env_var_of_field f) = some s →
    parseBoolStr s = some b → x = b) ∧
  (kw f = Option.none → environ (env_var_of_field f) = Option.none → x = d)

/-- A validated `str` field obeys the precedence order. -/
lemma strFieldPrec_of_coerce {kw : String → Option PyVal}
    {environ : String → Option String} {f x d : String}
    (hf : f ∈ configFieldNames)
    (hc : coerceStr (final_values kw environ f) d = some x) :
    StrFieldPrec kw environ f x d := by
  refine ⟨?_, ?_, ?_⟩
  · intro v hv
    rw [final_values_override hv] at hc
    simp [coerceStr] at hc
    exact hc.symm
  · intro h1 s h2
    rw [final_values_env h1 hf h2] at hc
    simp [coerceStr] at hc
    exact hc.symm
  · intro h1 h2
    rw [final_values_default h1 h2] at hc
    simp [coerceStr] at hc
    exact hc.symm

/-- A validated `Optional[str]` field obeys the precedence order. -/
lemma optStrFieldPrec_of_coerce {kw : String → Option PyVal}
    {environ : String → Option String} {f : String} {x d : Option String}
    (hf : f ∈ configFieldNames)
    (hc : coerceOptStr (final_values kw environ f) d = some x) :
    OptStrFieldPrec kw environ f x d := by
  refine ⟨?_, ?_, ?_, ?_⟩
  · intro v hv
    rw [final_values_override hv] at hc
    simp [coerceOptStr] at hc
    exact hc.symm
  · intro hv
    rw [final_values_override hv] at hc
    simp [coerceOptStr] at hc
    exact hc.symm
  · intro h1 s h2
    rw [final_values_env h1 hf h2] at hc
    simp [coerceOptStr] at hc
    exact hc.symm
  · intro h1 h2
    rw [final_values_default h1 h2] at hc
    simp [coerceOptStr] at hc
    exact hc.symm

/-- A validated `int` field obeys the precedence order. -/
lemma intFieldPrec_of_coerce {kw : String → Option PyVal}
    {environ : String → Option String} {f : String} {x d : Int}
    (hf : f ∈ configFieldNames)
    (hc : coerceInt (final_values kw environ f) d = some x) :
    IntFieldPrec kw environ f x d := by
  refine ⟨?_, ?_, ?_⟩
  · intro n hn
    rw [final_values_override hn] at hc
    simp [coerceInt] at hc
    exact hc.symm
  · intro h1 s n h2 hs
    rw [final_values_env h1 hf h2] at hc
    simp [coerceInt] at hc
    rw [hc] at hs
    exact Option.some.inj hs
  · intro h1 h2
    rw [final_values_default h1 h2] at hc
    simp [coerceInt] at hc
    exact hc.symm

/-- A validated `bool` field obeys the precedence order. -/
lemma boolFieldPrec_of_coerce {kw : String → Option PyVal}
    {environ : String → Option String} {f : String} {x d : Bool}
    (hf : f ∈ configFieldNames)
    (hc : coerceBool (final_values kw environ f) d = some x) :
    BoolFieldPrec kw environ f x d := by
  refine ⟨?_, ?_, ?_⟩
  · intro b hb
    rw [final_values_override hb] at hc
    simp [coerceBool] at hc
    exact hc.symm
  · intro h1 s b h2 hs
    rw [final_values_env h1 hf h2] at hc
    simp [coerceBool] at hc
    rw [hc] at hs
    exact Option.some.inj hs
  · intro h1 h2
    rw [final_values_default h1 h2] at hc
    simp [coerceBool] at hc
    exact hc.symm

/-- Destructor for a successful `Option.bind`. -/
lemma bind_some_elim {α β : Type} {x : Option α} {f : α → Option β} {b : β}
    (h : Option.bind x f = some b) : ∃ a, x = some a ∧ f a = some b :=
  Option.bind_eq_some.mp h

/-- A successful construction determines every field from its merged value
(or its default). -/
lemma construct_fields {kw : String → Option PyVal}
    {environ : String → Option String} {cfg : Config}
    (h : Config.construct kw environ = some cfg) :
    coerceStr (final_values kw environ "google_cloud_project") ""
        = some cfg.google_cloud_project ∧
    coerceOptStr (final_values kw environ "google_application_credentials")
        Option.none = some cfg.google_application_credentials ∧
    coerceStr (final_values kw environ "vertex_ai_location") "us-central1"
        = some cfg.vertex_ai_location ∧
    coerceOptStr (final_values kw environ "dialogflow_project_id")
        Option.none = some cfg.dialogflow_project_id ∧
    coerceStr (final_values kw environ "dialogflow_language_code") "en-US"
        = some cfg.dialogflow_language_code ∧
    coerceOptStr (final_values kw environ "openai_api_key") Option.none
        = some cfg.openai_api_key ∧
    coerceStr (final_values kw environ "agent_name") "playground-agent"
        = some cfg.agent_name ∧
    coerceStr (final_values kw environ "agent_description")
        "A playground agent for experimentation"
        = some cfg.agent_description ∧
    coerceStr (final_values kw environ "host") "localhost" = some cfg.host ∧
    coerceInt (final_values kw environ "port") 8000 = some cfg.port ∧
    coerceBool (final_values kw environ "debug") true = some cfg.debug ∧
    coerceStr (final_values kw environ "log_level") "INFO"
        = some cfg.log_level ∧
    coerceStr (final_values kw environ "log_format") "json"
        = some cfg.log_format ∧
    coerceOptStr (final_values kw environ "storage_bucket") Option.none
        = some cfg.storage_bucket ∧
    coerceStr (final_values kw environ "environment") "development"
        = some cfg.environment := by
  unfold Config.construct at h
  obtain ⟨v1, h1, h⟩ := bind_some_elim h
  obtain ⟨v2, h2, h⟩ := bind_some_elim h
  obtain ⟨v3, h3, h⟩ := bind_some_elim h
  obtain ⟨v4, h4, h⟩ := bind_some_elim h
  obtain ⟨v5, h5, h⟩ := bind_some_elim h
  obtain ⟨v6, h6, h⟩ := bind_some_elim h
  obtain ⟨v7, h7, h⟩ := bind_some_elim h
  obtain ⟨v8, h8, h⟩ := bind_some_elim h
  obtain ⟨v9, h9, h⟩ := bind_some_elim h
  obtain ⟨v10, h10, h⟩ := bind_some_elim h
  obtain ⟨v11, h11, h⟩ := bind_some_elim h
  obtain ⟨v12, h12, h⟩ := bind_some_elim h
  obtain ⟨v13, h13, h⟩ := bind_some_elim h
  obtain ⟨v14, h14, h⟩ := bind_some_elim h
  obtain ⟨v15, h15, h⟩ := bind_some_elim h
  obtain rfl := Option.some.inj h
  exact ⟨h1, h2, h3, h4, h5, h6, h7, h8, h9, h10, h11, h12, h13, h14, h15⟩

/-- Every field of a successfully constructed `Config` obeys the precedence
order: explicit keyword argument over environment variable over declared
default. -/
lemma config_precedence_all (kwargs : String → Option PyVal)
    (environ : String → Option String) (cfg : Config)
    (h : Config.construct kwargs environ = some cfg) :
    StrFieldPrec kwargs environ "google_cloud_project"
        cfg.google_cloud_project "" ∧
    OptStrFieldPrec kwargs environ "google_application_credentials"
        cfg.google_application_credentials Option.none ∧
    StrFieldPrec kwargs environ "vertex_ai_location" cfg.vertex_ai_location
        "us-central1" ∧
    OptStrFieldPrec kwargs environ "dialogflow_project_id"
        cfg.dialogflow_project_id Option.none ∧
    StrFieldPrec kwargs environ "dialogflow_language_code"
        cfg.dialogflow_language_code "en-US" ∧
    OptStrFieldPrec kwargs environ "openai_api_key" cfg.openai_api_key
        Option.none ∧
    StrFieldPrec kwargs environ "agent_name" cfg.agent_name
        "playground-agent" ∧
    StrFieldPrec kwargs environ "agent_description" cfg.agent_description
        "A playground agent for experimentation" ∧
    StrFieldPrec kwargs environ "host" cfg.host "localhost" ∧
    IntFieldPrec kwargs environ "port" cfg.port 8000 ∧
    BoolFieldPrec kwargs environ "debug" cfg.debug true ∧
    StrFieldPrec kwargs environ "log_level" cfg.log_level "INFO" ∧
    StrFieldPrec kwargs environ "log_format" cfg.log_format "json" ∧
    OptStrFieldPrec kwargs environ "storage_bucket" cfg.storage_bucket
        Option.none ∧
    StrFieldPrec kwargs environ "environment" cfg.environment
        "development" := by
  obtain ⟨h1, h2, h3, h4, h5, h6, h7, h8, h9, h10, h11, h12, h13, h14, h15⟩
    := construct_fields h
  exact ⟨strFieldPrec_of_coerce (by decide) h1,
    optStrFieldPrec_of_coerce (by decide) h2,
    strFieldPrec_of_coerce (by decide) h3,
    optStrFieldPrec_of_coerce (by decide) h4,
    strFieldPrec_of_coerce (by decide) h5,
    optStrFieldPrec_of_coerce (by decide) h6,
    strFieldPrec_of_coerce (by decide) h7,
    strFieldPrec_of_coerce (by decide) h8,
    strFieldPrec_of_coerce (by decide) h9,
    intFieldPrec_of_coerce (by decide) h10,
    boolFieldPrec_of_coerce (by decide) h11,
    strFieldPrec_of_coerce (by decide) h12,
    strFieldPrec_of_coerce (by decide) h13,
    optStrFieldPrec_of_coerce (by decide) h14,
    strFieldPrec_of_coerce (by decide) h15⟩

/-- The keyword arguments of the explicit-override scenario:
`Config(google_cloud_project="p", host="h", port=9)`. -/
def overridesPHW : String → Option PyVal := fun k =>
  if k = "google_cloud_project" then some (PyVal.str "p")
  else if k = "host" then some (PyVal.str "h")
  else if k = "port" then some (PyVal.int 9)
  else Option.none

/-- C5: every field of a constructed `Config` follows the deterministic
precedence order (explicit constructor override over environment variable
over built-in default), and in particular explicit
`google_cloud_project="p", host="h", port=9` yield exactly those field
values whatever the environment holds. -/
theorem config_construct_precedence_c5 :
    (∀ (kwargs : String → Option PyVal) (environ : String → Option String)
        (cfg : Config), Config.construct kwargs environ = some cfg →
      StrFieldPrec kwargs environ "google_cloud_project"
          cfg.google_cloud_project "" ∧
      OptStrFieldPrec kwargs environ "google_application_credentials"
          cfg.google_application_credentials Option.none ∧
      StrFieldPrec kwargs environ "vertex_ai_location"
          cfg.vertex_ai_location "us-central1" ∧
      OptStrFieldPrec kwargs environ "dialogflow_project_id"
          cfg.dialogflow_project_id Option.none ∧
      StrFieldPrec kwargs environ "dialogflow_language_code"
          cfg.dialogflow_language_code "en-US" ∧
      OptStrFieldPrec kwargs environ "openai_api_key" cfg.openai_api_key
          Option.none ∧
      StrFieldPrec kwargs environ "agent_name" cfg.agent_name
          "playground-agent" ∧
      StrFieldPrec kwargs environ "agent_description" cfg.agent_description
          "A playground agent for experimentation" ∧
      StrFieldPrec kwargs environ "host" cfg.host "localhost" ∧
      IntFieldPrec kwargs environ "port" cfg.port 8000 ∧
      BoolFieldPrec kwargs environ "debug" cfg.debug true ∧
      StrFieldPrec kwargs environ "log_level" cfg.log_level "INFO" ∧
      StrFieldPrec kwargs environ "log_format" cfg.log_format "json" ∧
      OptStrFieldPrec kwargs environ "storage_bucket" cfg.storage_bucket
          Option.none ∧
      StrFieldPrec kwargs environ "environment" cfg.environment
          "development") ∧
    (∀ (environ : String → Option String) (cfg : Config),
      Config.construct overridesPHW environ = some cfg →
      cfg.google_cloud_project = "p" ∧ cfg.host = "h" ∧ cfg.port = 9) := by
  refine ⟨config_precedence_all, ?_⟩
  intro environ cfg h
  obtain ⟨h1, _, _, _, _, _, _, _, h9, h10, _⟩ :=
    config_precedence_all overridesPHW environ cfg h
  exact ⟨h1.1 "p" (by decide), h9.1 "h" (by decide), h10.1 9 (by decide)⟩

/-- A concrete environment: only `AGENT_NAME` is set. -/
def environW : String → Option String := fun v =>
  if v = "AGENT_NAME" then some "env-agent" else Option.none

/-- The configuration produced by `Config(google_cloud_project="p",
host="h", port=9)` under `environW`: the three overridden fields, the
environment-supplied agent name, and declared defaults elsewhere. -/
def cfgW : Config :=
  { google_cloud_project := "p", google_application_credentials := Option.none,
    vertex_ai_location := "us-central1", dialogflow_project_id := Option.none,
    dialogflow_language_code := "en-US", openai_api_key := Option.none,
    agent_name := "env-agent",
    agent_description := "A playground agent for experimentation",
    host := "h", port := 9, debug := true, log_level := "INFO",
    log_format := "json", storage_bucket := Option.none,
    environment := "development" }

/-- Witness for C5 on the concrete override scenario. -/
theorem config_construct_precedence_c5_witness :
    cfgW.google_cloud_project = "p" ∧ cfgW.host = "h" ∧ cfgW.port = 9 :=
  config_construct_precedence_c5.2 environW cfgW (by decide)

end ADK
